import Mathlib

/-!
Verification of the sqlite gateway of this repository
(src/04_gateways/database: database_connector.h, sqlite3_database_connector.cc).

The development is a shallow embedding: each C++ member function of the
gateway is translated to a Lean function over explicit state.  The native
sqlite3 library is an external collaborator; its documented behaviour
(result codes, bind-index range checking, transaction semantics, typed cell
storage) is modelled by small concrete environment functions, clearly marked
below.  Exceptions become `Except DbError`; because C++ exceptions unwind
while mutable state persists, stateful operations return
`State × Except DbError α` so that the state at the moment of the throw is
retained.
-/

namespace Gateways.Database

/-! Result codes used by the gateway, values as in sqlite3.h. -/

def SQLITE_OK : Nat := 0
def SQLITE_ROW : Nat := 100
def SQLITE_DONE : Nat := 101
def SQLITE_RANGE : Nat := 25
def SQLITE_CANTOPEN : Nat := 14

/-! Column type tags, values as in sqlite3.h. -/

def SQLITE_INTEGER : Nat := 1
def SQLITE_FLOAT : Nat := 2
def SQLITE_TEXT : Nat := 3
def SQLITE_BLOB : Nat := 4
def SQLITE_NULL : Nat := 5

/-- Opaque carrier for a C++ `double` payload.  The gateway never computes
with a bound double, it only passes the 64-bit payload through, so the
payload is modelled as an uninterpreted bit pattern. -/
structure F64 where
  bits : Nat
deriving DecidableEq, Repr

/-- DbValue (database_connector.h line 16): the closed tagged union
`std::variant<std::nullptr_t, int64_t, double, std::string, std::vector<uint8_t>>`. -/
inductive DbValue
  | vNull
  | vInt (value : Int)
  | vFloat (value : F64)
  | vText (value : String)
  | vBlob (value : List Nat)
deriving DecidableEq, Repr

/-- DbRow (database_connector.h line 20): `std::vector<DbValue>`. -/
abbrev DbRow : Type := List DbValue

/-- DbResult (database_connector.h line 21): `std::vector<DbRow>`. -/
abbrev DbResult : Type := List DbRow

/-- The two gateway error kinds (database_connector.h lines 32-42):
`ConnectionException` and `QueryException`, both carrying a message. -/
inductive DbError
  | connectionError (msg : String)
  | queryError (msg : String)
deriving DecidableEq, Repr

/-- True when an operation outcome is a thrown `QueryException`. -/
def isQueryError {α : Type} : Except DbError α → Bool
  | Except.error (DbError.queryError _) => true
  | _ => false

/-- True when an operation outcome is a thrown `ConnectionException`. -/
def isConnectionError {α : Type} : Except DbError α → Bool
  | Except.error (DbError.connectionError _) => true
  | _ => false

/-! The statement-level model.  A stored cell is what the native store keeps
for one bound parameter or one result column: a runtime type tag plus a
payload of that type. -/

/-- One typed cell of the native store (environment model: sqlite keeps a
per-value runtime type tag and the corresponding payload, unchanged). -/
inductive StoredCell
  | cNull
  | cInt (v : Int)
  | cFloat (v : F64)
  | cText (v : String)
  | cBlob (v : List Nat)
deriving DecidableEq, Repr

/-- Environment model of sqlite3_column_type: the cell's runtime type tag. -/
def sqlite3_column_type : StoredCell → Nat
  | StoredCell.cNull => SQLITE_NULL
  | StoredCell.cInt _ => SQLITE_INTEGER
  | StoredCell.cFloat _ => SQLITE_FLOAT
  | StoredCell.cText _ => SQLITE_TEXT
  | StoredCell.cBlob _ => SQLITE_BLOB

/-- Environment model of sqlite3_column_int64 (only consulted on an integer
cell; 0 is the native default for other tags). -/
def sqlite3_column_int64 : StoredCell → Int
  | StoredCell.cInt v => v
  | _ => 0

/-- Environment model of sqlite3_column_double. -/
def sqlite3_column_double : StoredCell → F64
  | StoredCell.cFloat v => v
  | _ => F64.mk 0

/-- Environment model of sqlite3_column_text; `none` models a NULL pointer,
which the gateway maps to the empty string. -/
def sqlite3_column_text : StoredCell → Option String
  | StoredCell.cText v => some v
  | _ => none

/-- Environment model of sqlite3_column_blob: the byte sequence of a blob
cell (empty for other tags). -/
def sqlite3_column_blob : StoredCell → List Nat
  | StoredCell.cBlob v => v
  | _ => []

/-- Environment model of sqlite3_column_bytes: the byte length of the cell. -/
def sqlite3_column_bytes : StoredCell → Nat
  | StoredCell.cBlob v => v.length
  | StoredCell.cText v => v.length
  | _ => 0

/-- SqliteStatement::checkError (sqlite3_database_connector.cc lines 155-159):
any result other than SQLITE_OK, SQLITE_ROW, SQLITE_DONE throws
`QueryException(context + ": " + errmsg)`. -/
def checkError (result : Nat) (ctx : String) : Except DbError Unit :=
  if result ≠ SQLITE_OK ∧ result ≠ SQLITE_ROW ∧ result ≠ SQLITE_DONE then
    Except.error (DbError.queryError ctx)
  else
    Except.ok ()

/-- The prepared-statement state: the compiled query's parameter count and
the currently bound parameter cells (sqlite initialises every parameter slot
to NULL until bound). -/
structure SqliteStmt where
  paramCount : Nat
  boundParams : List StoredCell
deriving DecidableEq, Repr

/-- Environment model of the sqlite3_bind_* family's shared index check:
a 1-based index outside [1, parameter count] yields SQLITE_RANGE and leaves
the statement unchanged; otherwise the cell is stored in the slot. -/
def sqlite3_bind_cell (stmt : SqliteStmt) (index : Int) (cell : StoredCell) :
    SqliteStmt × Nat :=
  if 1 ≤ index ∧ index ≤ (stmt.paramCount : Int) then
    ({ stmt with boundParams := stmt.boundParams.set (index.toNat - 1) cell },
      SQLITE_OK)
  else
    (stmt, SQLITE_RANGE)

/-- SqliteStatement::bind(int, std::nullptr_t) (cc lines 41-44). -/
def bindNull (stmt : SqliteStmt) (index : Int) : SqliteStmt × Except DbError Unit :=
  let (s, rc) := sqlite3_bind_cell stmt index StoredCell.cNull
  (s, checkError rc "bind null")

/-- SqliteStatement::bind(int, int64_t) (cc lines 46-49). -/
def bindInt64 (stmt : SqliteStmt) (index : Int) (value : Int) :
    SqliteStmt × Except DbError Unit :=
  let (s, rc) := sqlite3_bind_cell stmt index (StoredCell.cInt value)
  (s, checkError rc "bind int64")

/-- SqliteStatement::bind(int, double) (cc lines 51-54). -/
def bindDouble (stmt : SqliteStmt) (index : Int) (value : F64) :
    SqliteStmt × Except DbError Unit :=
  let (s, rc) := sqlite3_bind_cell stmt index (StoredCell.cFloat value)
  (s, checkError rc "bind double")

/-- The C-string view taken by `value.c_str()` with length -1
(cc line 58): sqlite3_bind_text reads bytes up to the first NUL terminator,
so the stored text is the prefix of `value` before its first NUL byte. -/
def truncateAtNul (s : String) : String :=
  String.mk (s.toList.takeWhile (fun c => c ≠ Char.ofNat 0))

/-- SqliteStatement::bind(int, const std::string&) (cc lines 56-61):
`sqlite3_bind_text(m_stmt, index, value.c_str(), -1, SQLITE_TRANSIENT)`. -/
def bindText (stmt : SqliteStmt) (index : Int) (value : String) :
    SqliteStmt × Except DbError Unit :=
  let (s, rc) := sqlite3_bind_cell stmt index (StoredCell.cText (truncateAtNul value))
  (s, checkError rc "bind text")

/-- SqliteStatement::bind(int, const std::vector<uint8_t>&) (cc lines 63-68):
binds `blob.size()` bytes starting at `blob.data()`. -/
def bindBlob (stmt : SqliteStmt) (index : Int) (blob : List Nat) :
    SqliteStmt × Except DbError Unit :=
  let (s, rc) := sqlite3_bind_cell stmt index (StoredCell.cBlob blob)
  (s, checkError rc "bind blob")

/-- SqliteStatement::bindValue (cc lines 70-87): `std::visit` dispatch on the
active variant of the DbValue to the matching bind overload. -/
def bindValue (stmt : SqliteStmt) (index : Int) (value : DbValue) :
    SqliteStmt × Except DbError Unit :=
  match value with
  | DbValue.vNull => bindNull stmt index
  | DbValue.vInt v => bindInt64 stmt index v
  | DbValue.vFloat v => bindDouble stmt index v
  | DbValue.vText v => bindText stmt index v
  | DbValue.vBlob v => bindBlob stmt index v

/-- SqliteStatement::extractColumn (cc lines 161-190): switch on the native
column type tag, mapping each tag to exactly one DbValue variant, with a
NULL default; a NULL text pointer becomes the empty string, and a blob is
read as the `sqlite3_column_bytes` bytes from `sqlite3_column_blob`. -/
def extractColumn (cell : StoredCell) : DbValue :=
  let type := sqlite3_column_type cell
  if type = SQLITE_NULL then DbValue.vNull
  else if type = SQLITE_INTEGER then DbValue.vInt (sqlite3_column_int64 cell)
  else if type = SQLITE_FLOAT then DbValue.vFloat (sqlite3_column_double cell)
  else if type = SQLITE_TEXT then
    DbValue.vText (match sqlite3_column_text cell with
      | some text => text
      | none => "")
  else if type = SQLITE_BLOB then
    DbValue.vBlob (List.take (sqlite3_column_bytes cell) (sqlite3_column_blob cell))
  else DbValue.vNull

/-- A one-parameter INSERT statement as freshly compiled: one slot,
initialised to NULL. -/
def initialStmt : SqliteStmt :=
  { paramCount := 1, boundParams := [StoredCell.cNull] }

/-- The single-value round trip of the spec's testable property: bind the
value at index 1 of a one-placeholder INSERT, execute the insert (the store
persists the bound cell unchanged into an untyped column), then read the row
back and extract column 0.  The persist/read-back middle is the environment
(sqlite stores the bound cell as-is); the two ends, `bindValue` and
`extractColumn`, are the gateway code under test. -/
def roundTrip (v : DbValue) : Except DbError DbValue :=
  match bindValue initialStmt 1 v with
  | (_, Except.error e) => Except.error e
  | (stmt1, Except.ok _) =>
    let storedRow := stmt1.boundParams
    Except.ok (extractColumn (storedRow.headD StoredCell.cNull))

/-- A DbValue whose text payload (if any) is unchanged by the NUL-terminated
C-string view the gateway binds it through. -/
def textCStringSafe : DbValue → Bool
  | DbValue.vText s => decide (truncateAtNul s = s)
  | _ => true

/-! The connection-level model.  A connection owns one table (the claims
about transactions and batches quantify over a single target table), the
snapshot semantics of an open transaction, and a trace of the successfully
executed transaction-control statements.  `commitFault` is an environment
injection point: when set, the next COMMIT fails at the store (e.g.
SQLITE_BUSY) and, as sqlite documents for a failed COMMIT, the transaction
stays open. -/

/-- A transaction-control statement successfully executed on the connection. -/
inductive TxnStmt
  | tBegin
  | tCommit
  | tRollback
deriving DecidableEq, Repr

/-- The open native connection's state. `store` is the committed table
content; `pending` is `some` snapshot while a transaction is open; `changes`
models sqlite3_changes; `prepared` counts sqlite3_prepare_v2 calls; `txnLog`
records every BEGIN/COMMIT/ROLLBACK that the store accepted. -/
structure Conn where
  store : List DbRow
  pending : Option (List DbRow)
  changes : Nat
  prepared : Nat
  txnLog : List TxnStmt
  commitFault : Bool
deriving DecidableEq, Repr

/-- SqliteDatabase::prepare (cc lines 270-275) as seen by this model: the
connection compiles one more statement. -/
def dbPrepare (c : Conn) : Conn :=
  { c with prepared := c.prepared + 1 }

/-- SqliteDatabase::beginTransaction (cc line 297): `execute("BEGIN
TRANSACTION")`.  Environment: sqlite rejects a nested BEGIN; otherwise the
transaction opens on a snapshot of the committed store. -/
def dbBeginTransaction (c : Conn) : Conn × Except DbError Unit :=
  match c.pending with
  | some _ =>
    (c, Except.error (DbError.queryError "cannot start a transaction within a transaction"))
  | none =>
    ({ c with pending := some c.store, txnLog := c.txnLog ++ [TxnStmt.tBegin] },
      Except.ok ())

/-- SqliteDatabase::commit (cc line 299): `execute("COMMIT")`.  Environment:
COMMIT fails if no transaction is active; an injected store-level commit
failure (e.g. SQLITE_BUSY) also fails and leaves the transaction open. -/
def dbCommit (c : Conn) : Conn × Except DbError Unit :=
  match c.pending with
  | none =>
    (c, Except.error (DbError.queryError "cannot commit - no transaction is active"))
  | some s =>
    if c.commitFault then
      ({ c with commitFault := false },
        Except.error (DbError.queryError "database is locked"))
    else
      ({ c with store := s, pending := none, txnLog := c.txnLog ++ [TxnStmt.tCommit] },
        Except.ok ())

/-- SqliteDatabase::rollback (cc line 301): `execute("ROLLBACK")`.
Environment: ROLLBACK fails if no transaction is active; rolling back an
open transaction (single synchronous connection) succeeds and discards the
pending snapshot. -/
def dbRollback (c : Conn) : Conn × Except DbError Unit :=
  match c.pending with
  | none =>
    (c, Except.error (DbError.queryError "cannot rollback - no transaction is active"))
  | some _ =>
    ({ c with pending := none, txnLog := c.txnLog ++ [TxnStmt.tRollback] },
      Except.ok ())

/-- TransactionScope (sqlite3_database_connector.h lines 62-78): the RAII
guard's own state is the `m_finished` flag. -/
structure TransactionScope where
  m_finished : Bool
deriving DecidableEq, Repr

/-- TransactionScope::commit (cc lines 211-214): `m_db.commit();
m_finished = true;` — the flag is set only after the underlying commit
returns without throwing. -/
def TransactionScope.commit (g : TransactionScope) (c : Conn) :
    (TransactionScope × Conn) × Except DbError Unit :=
  let (c1, r) := dbCommit c
  match r with
  | Except.ok _ => (({ m_finished := true }, c1), Except.ok ())
  | Except.error e => ((g, c1), Except.error e)

/-- TransactionScope::rollback (cc lines 216-219): `m_db.rollback();
m_finished = true;`. -/
def TransactionScope.rollback (g : TransactionScope) (c : Conn) :
    (TransactionScope × Conn) × Except DbError Unit :=
  let (c1, r) := dbRollback c
  match r with
  | Except.ok _ => (({ m_finished := true }, c1), Except.ok ())
  | Except.error e => ((g, c1), Except.error e)

/-- TransactionScope::~TransactionScope (cc lines 201-209): if not finished,
roll back, suppressing any exception raised by the rollback. -/
def TransactionScope.destruct (g : TransactionScope) (c : Conn) : Conn :=
  if g.m_finished then c else (dbRollback c).1

/-! A harness for the guard's lifecycle: an arbitrary scope body is a list
of actions - explicit commit, explicit rollback, some statement that writes
rows, or a raised error.  Execution stops at the first escaping error (C++
stack unwinding); the guard's destructor always runs afterwards. -/

/-- One action of a scope body guarded by a TransactionScope. -/
inductive GAction
  | gCommit
  | gRollback
  | gWork (f : List DbRow → List DbRow)
  | gRaise

/-- A mutating statement executed on the connection: inside an open
transaction it rewrites the pending snapshot, otherwise (autocommit) the
committed store. -/
def dbWork (f : List DbRow → List DbRow) (c : Conn) : Conn :=
  match c.pending with
  | some s => { c with pending := some (f s) }
  | none => { c with store := f c.store }

/-- Result of running a scope body (before the guard's destructor). -/
structure BodyResult where
  guard : TransactionScope
  conn : Conn
  committedOk : Bool
  errorRaised : Bool
deriving Repr

/-- Runs a scope body action by action.  `committedOk` records whether some
`commit()` call on the guard has succeeded.  A raised error, or an error
thrown by a guard call, ends the body (unwinding). -/
def runBody : List GAction → TransactionScope → Conn → Bool → BodyResult
  | [], g, c, committedOk =>
    { guard := g, conn := c, committedOk := committedOk, errorRaised := false }
  | a :: rest, g, c, committedOk =>
    match a with
    | GAction.gRaise =>
      { guard := g, conn := c, committedOk := committedOk, errorRaised := true }
    | GAction.gWork f => runBody rest g (dbWork f c) committedOk
    | GAction.gCommit =>
      match g.commit c with
      | ((g1, c1), Except.ok _) => runBody rest g1 c1 true
      | ((g1, c1), Except.error _) =>
        { guard := g1, conn := c1, committedOk := committedOk, errorRaised := true }
    | GAction.gRollback =>
      match g.rollback c with
      | ((g1, c1), Except.ok _) => runBody rest g1 c1 committedOk
      | ((g1, c1), Except.error _) =>
        { guard := g1, conn := c1, committedOk := committedOk, errorRaised := true }

/-- Result of a whole guarded scope, destructor included. -/
structure ScopeResult where
  conn : Conn
  committedOk : Bool
  errorEscaped : Bool
deriving Repr

/-- A whole guarded scope: the guard's constructor issues BEGIN (if that
throws, the guard is never constructed and no destructor runs); then the
body; then the destructor. -/
def runScope (body : List GAction) (c : Conn) : ScopeResult :=
  let (c1, r) := dbBeginTransaction c
  match r with
  | Except.error _ => { conn := c1, committedOk := false, errorEscaped := true }
  | Except.ok _ =>
    let res := runBody body { m_finished := false } c1 false
    { conn := res.guard.destruct res.conn
      committedOk := res.committedOk
      errorEscaped := res.errorRaised }

/-! Batch execution and the bulk helpers.  A compiled DML statement's
behaviour on one already-bound parameter set is an environment parameter: a
function from the currently visible table and the parameters to either a
store-level error (e.g. a constraint violation) or the new table content
plus the sqlite3_changes value of that step.  `reset()` plus the bind loop
of the source reduce, in this model, to handing the parameter set to that
function. -/

/-- Environment: semantics of one sqlite3_step of a compiled DML statement
over the visible table, for one parameter set. -/
def StepFn : Type :=
  List DbRow → List DbValue → Except DbError (List DbRow × Nat)

/-- The table a statement sees: the pending snapshot inside an open
transaction, the committed store otherwise. -/
def visibleTable (c : Conn) : List DbRow :=
  match c.pending with
  | some s => s
  | none => c.store

/-- Writes the statement's new table content back where it was read from. -/
def setVisibleTable (c : Conn) (t : List DbRow) : Conn :=
  match c.pending with
  | some _ => { c with pending := some t }
  | none => { c with store := t }

/-- One loop iteration of SqliteStatement::executeBatch (cc lines 137-150):
reset, bind the parameter set, sqlite3_step; a non-DONE result throws via
checkError, leaving the connection as the failed step left it. -/
def stmtStep (step : StepFn) (c : Conn) (params : List DbValue) :
    Conn × Except DbError Unit :=
  match step (visibleTable c) params with
  | Except.error e => (c, Except.error e)
  | Except.ok (t, n) => ({ setVisibleTable c t with changes := n }, Except.ok ())

/-- The loop of SqliteStatement::executeBatch (cc lines 133-153) with its
running `totalChanges` accumulator: after each successful step the current
sqlite3_changes value is added. -/
def executeBatchGo (step : StepFn) (totalChanges : Nat) (c : Conn) :
    List (List DbValue) → Conn × Except DbError Nat
  | [] => (c, Except.ok totalChanges)
  | params :: rest =>
    match stmtStep step c params with
    | (c1, Except.error e) => (c1, Except.error e)
    | (c1, Except.ok _) => executeBatchGo step (totalChanges + c1.changes) c1 rest

/-- SqliteStatement::executeBatch (cc lines 133-153). -/
def executeBatch (step : StepFn) (c : Conn) (paramSets : List (List DbValue)) :
    Conn × Except DbError Nat :=
  executeBatchGo step 0 c paramSets

/-- Environment: the compiled statement of bulkInsert's synthesized
one-placeholder-per-column INSERT.  `conflict` is the store's constraint
check (e.g. uniqueness) on the candidate row against the visible table; a
successful single-row INSERT reports sqlite3_changes = 1. -/
def insertStep (conflict : List DbRow → DbRow → Bool) : StepFn :=
  fun table params =>
    if conflict table params then
      Except.error (DbError.queryError "UNIQUE constraint failed")
    else
      Except.ok (table ++ [params], 1)

/-- The SQL string synthesized by SqliteDatabase::bulkInsert
(cc lines 330-345): `INSERT INTO table (c1, ..., cn) VALUES (?, ..., ?)`. -/
def buildInsertSql (table : String) (columns : List String) : String :=
  "INSERT INTO " ++ table ++ " (" ++ String.intercalate ", " columns ++
    ") VALUES (" ++ String.intercalate ", " (columns.map (fun _ => "?")) ++ ")"

/-- The shared tail of SqliteDatabase::bulkInsert (cc lines 347-354) and
SqliteDatabase::bulkExecute (cc lines 364-371), whose bodies are line for
line identical once the statement is chosen: prepare the statement, enter a
TransactionScope, run executeBatch, commit the scope, with C++ unwinding
made explicit — an error from the batch (or from the commit itself, which
leaves `m_finished` unset) reaches the guard's destructor, which rolls
back; after a successful commit the destructor is a no-op. -/
def runBatchTxn (step : StepFn) (c : Conn) (paramSets : List (List DbValue)) :
    Conn × Except DbError Nat :=
  let c0 := dbPrepare c
  match dbBeginTransaction c0 with
  | (c1, Except.error e) => (c1, Except.error e)
  | (c1, Except.ok _) =>
    match executeBatch step c1 paramSets with
    | (c2, Except.error e) =>
      (TransactionScope.destruct { m_finished := false } c2, Except.error e)
    | (c2, Except.ok n) =>
      match TransactionScope.commit { m_finished := false } c2 with
      | ((g1, c3), Except.ok _) => (g1.destruct c3, Except.ok n)
      | ((g1, c3), Except.error e) => (g1.destruct c3, Except.error e)

/-- SqliteDatabase::bulkInsert (cc lines 323-355): empty input returns 0
before any statement or transaction; otherwise the synthesized INSERT is
driven over all rows inside one TransactionScope. -/
def bulkInsert (conflict : List DbRow → DbRow → Bool) (c : Conn)
    (table : String) (columns : List String) (rows : List (List DbValue)) :
    Conn × Except DbError Nat :=
  if rows.isEmpty then
    (c, Except.ok 0)
  else
    let _sql := buildInsertSql table columns
    runBatchTxn (insertStep conflict) c rows

/-- SqliteDatabase::bulkExecute (cc lines 357-372): empty input returns 0
immediately; otherwise the caller's compiled statement is driven over all
parameter sets inside one TransactionScope. -/
def bulkExecute (step : StepFn) (c : Conn) (paramSets : List (List DbValue)) :
    Conn × Except DbError Nat :=
  if paramSets.isEmpty then
    (c, Except.ok 0)
  else
    runBatchTxn step c paramSets

/-- Environment: semantics of the compiled SELECT statement of bulkSelect on
one parameter set - the rows it produces, in the store's row order, from the
visible table. -/
def QueryFn : Type :=
  List DbRow → List DbValue → List DbRow

/-- The accumulation loop of SqliteDatabase::bulkSelect (cc lines 386-397):
reset, bind the parameter set, execute, and append the produced rows to
`combinedResults`. -/
def bulkSelectGo (queryFn : QueryFn) (c : Conn) (combinedResults : List DbRow) :
    List (List DbValue) → List DbRow
  | [] => combinedResults
  | params :: rest =>
    bulkSelectGo queryFn c (combinedResults ++ queryFn (visibleTable c) params) rest

/-- SqliteDatabase::bulkSelect (cc lines 374-400): empty input returns an
empty Result immediately; otherwise one statement is prepared and driven
over all parameter sets, concatenating the per-execution results.  Note the
source opens no TransactionScope here. -/
def bulkSelect (queryFn : QueryFn) (c : Conn) (paramSets : List (List DbValue)) :
    Conn × List DbRow :=
  if paramSets.isEmpty then
    (c, [])
  else
    (dbPrepare c, bulkSelectGo queryFn (dbPrepare c) [] paramSets)

/-! The handle-level model for open/close/isOpen and the metadata getters.
The world tracks which native connections are open (by id) and which of
them have referential-integrity enforcement switched on; fresh ids come
from a counter. -/

/-- The native side's global state: open connection ids, the ids with
PRAGMA foreign_keys = ON, and the next fresh id. -/
structure World where
  openConns : List Nat
  fkOn : List Nat
  nextId : Nat
deriving DecidableEq, Repr

/-- Environment model of sqlite3_open: on success a fresh connection is
allocated (foreign keys start off, sqlite's default).  On failure sqlite
may or may not still hand back an allocated handle for error inspection;
`allocOnFail` selects which of the two documented shapes occurs, and the
caller must close a returned handle. -/
def sqlite3_open_conn (openable : String → Bool) (allocOnFail : Bool)
    (w : World) (path : String) : World × Option Nat × Nat :=
  if openable path then
    ({ w with openConns := w.openConns ++ [w.nextId], nextId := w.nextId + 1 },
      some w.nextId, SQLITE_OK)
  else if allocOnFail then
    ({ w with openConns := w.openConns ++ [w.nextId], nextId := w.nextId + 1 },
      some w.nextId, SQLITE_CANTOPEN)
  else
    (w, none, SQLITE_CANTOPEN)

/-- Environment model of sqlite3_close: the connection id is released. -/
def sqlite3_close_conn (w : World) (id : Nat) : World :=
  { w with openConns := w.openConns.filter (fun j => j ≠ id)
           fkOn := w.fkOn.filter (fun j => j ≠ id) }

/-- SqliteDatabase's handle state: `m_db` (header line 140,
`sqlite3* m_db = nullptr`), here the id of the owned open connection. -/
structure SqliteDatabase where
  m_db : Option Nat
deriving DecidableEq, Repr

/-- The default-constructed handle (header line 86): closed. -/
def SqliteDatabase.mkClosed : SqliteDatabase :=
  { m_db := none }

/-- SqliteDatabase::close (cc lines 261-266): closes and nulls `m_db` if
open, no-op otherwise. -/
def SqliteDatabase.close (d : SqliteDatabase) (w : World) :
    SqliteDatabase × World :=
  match d.m_db with
  | some id => ({ m_db := none }, sqlite3_close_conn w id)
  | none => (d, w)

/-- SqliteDatabase::isOpen (cc line 268): `m_db != nullptr`. -/
def SqliteDatabase.isOpen (d : SqliteDatabase) : Bool :=
  d.m_db.isSome

/-- SqliteDatabase::enableForeignKeys (cc lines 315-317): executes the
PRAGMA against the open connection; `execute` throws ConnectionException if
the handle is closed (cc lines 277-279). -/
def SqliteDatabase.enableForeignKeys (d : SqliteDatabase) (w : World)
    (enable : Bool) : World × Except DbError Unit :=
  match d.m_db with
  | none => (w, Except.error (DbError.connectionError "Database not open"))
  | some id =>
    if enable then
      ({ w with fkOn := id :: w.fkOn.filter (fun j => j ≠ id) }, Except.ok ())
    else
      ({ w with fkOn := w.fkOn.filter (fun j => j ≠ id) }, Except.ok ())

/-- SqliteDatabase::open (cc lines 243-259): close the existing connection
first if any; call sqlite3_open; on a non-OK result close any handle that
was still allocated, null `m_db` and throw ConnectionException; on success
enable foreign-key enforcement on the new connection. -/
def dbOpen (openable : String → Bool) (allocOnFail : Bool)
    (d : SqliteDatabase) (w : World) (path : String) :
    (SqliteDatabase × World) × Except DbError Unit :=
  let (_d1, w1) :=
    match d.m_db with
    | some _ => d.close w
    | none => (d, w)
  match sqlite3_open_conn openable allocOnFail w1 path with
  | (w2, handle, rc) =>
    if rc ≠ SQLITE_OK then
      let w3 :=
        match handle with
        | some id => sqlite3_close_conn w2 id
        | none => w2
      (({ m_db := none }, w3),
        Except.error (DbError.connectionError "unable to open database file"))
    else
      let d2 : SqliteDatabase := { m_db := handle }
      match d2.enableForeignKeys w2 true with
      | (w3, r) => ((d2, w3), r)

/-- SqliteDatabase::lastInsertRowId (cc lines 307-309):
`m_db ? sqlite3_last_insert_rowid(m_db) : 0`.  `rowIdOf` is the
environment's per-connection last-insert-rowid. -/
def SqliteDatabase.lastInsertRowId (rowIdOf : Nat → Int) (d : SqliteDatabase) : Int :=
  match d.m_db with
  | some id => rowIdOf id
  | none => 0

/-- SqliteDatabase::changesCount (cc lines 311-313):
`m_db ? sqlite3_changes(m_db) : 0`. -/
def SqliteDatabase.changesCount (changesOf : Nat → Int) (d : SqliteDatabase) : Int :=
  match d.m_db with
  | some id => changesOf id
  | none => 0

/-! Concrete fixtures used by witnesses and counterexamples. -/

/-- A freshly opened connection with an empty committed table, no open
transaction and an empty control-statement trace. -/
def connEmpty : Conn :=
  { store := [], pending := none, changes := 0, prepared := 0, txnLog := [],
    commitFault := false }

/-! Theorems. -/

/-- C5: for every prepared Statement and every Value variant,
`bind(index, value)` with index 0 or with index greater than the statement's
parameter count fails with a QueryError, whatever the statement's shape. -/
theorem bind_invalid_index_query_error (stmt : SqliteStmt) (index : Int)
    (v : DbValue) (h : index = 0 ∨ (stmt.paramCount : Int) < index) :
    isQueryError (bindValue stmt index v).2 = true := by
  have hrange : ¬(1 ≤ index ∧ index ≤ (stmt.paramCount : Int)) := by
    rcases h with h | h <;> omega
  cases v <;>
    simp [bindValue, bindNull, bindInt64, bindDouble, bindText, bindBlob,
      sqlite3_bind_cell, hrange, checkError, isQueryError,
      SQLITE_RANGE, SQLITE_OK, SQLITE_ROW, SQLITE_DONE]

/-- Witness for C5: on a one-parameter statement, binding index 0 fails
with a QueryError. -/
theorem bind_invalid_index_query_error_witness :
    isQueryError (bindValue initialStmt 0 (DbValue.vInt 5)).2 = true :=
  bind_invalid_index_query_error initialStmt 0 (DbValue.vInt 5) (Or.inl rfl)

/-- C7, counterexample: a text Value with an interior NUL byte does not
round-trip unchanged - the gateway binds text through
`value.c_str()` with length -1, so the stored (and read-back) payload is
truncated at the first NUL; the claim fails at the valid pair
(1, text "a\x00b"). -/
theorem roundTrip_nul_text_cex :
    roundTrip (DbValue.vText "a\x00b") = Except.ok (DbValue.vText "a") ∧
      DbValue.vText "a" ≠ DbValue.vText "a\x00b" := by
  exact ⟨rfl, by decide⟩

/-- C7, amended: for every Value of each of the five variants, including
zero-length text and zero-length blob, binding the value, executing a
single-row insert and reading the value back yields the same variant with
the same payload, provided a text payload contains no interior NUL byte
(text is bound as a NUL-terminated C string and is truncated at its first
NUL). -/
theorem roundTrip_preserves_value (v : DbValue) (h : textCStringSafe v = true) :
    roundTrip v = Except.ok v := by
  cases v with
  | vNull => rfl
  | vInt i => rfl
  | vFloat f => rfl
  | vText s =>
    have hs : truncateAtNul s = s := of_decide_eq_true h
    show Except.ok (DbValue.vText (truncateAtNul s)) = Except.ok (DbValue.vText s)
    rw [hs]
  | vBlob b =>
    show Except.ok (DbValue.vBlob (List.take b.length b)) = Except.ok (DbValue.vBlob b)
    rw [List.take_length]

/-- Witness for C7's amended theorem: the zero-length text and the
zero-length blob both round-trip unchanged. -/
theorem roundTrip_preserves_value_witness :
    roundTrip (DbValue.vText "") = Except.ok (DbValue.vText "") ∧
      roundTrip (DbValue.vBlob []) = Except.ok (DbValue.vBlob []) :=
  ⟨roundTrip_preserves_value (DbValue.vText "") (by decide),
    roundTrip_preserves_value (DbValue.vBlob []) rfl⟩

/-- C8: on a handle in the closed state, lastInsertRowId() and
changesCount() both return 0 instead of raising, whatever the native
metadata of any connection is. -/
theorem metadata_zero_when_closed (rowIdOf changesOf : Nat → Int)
    (d : SqliteDatabase) (h : d.m_db = none) :
    SqliteDatabase.lastInsertRowId rowIdOf d = 0 ∧
      SqliteDatabase.changesCount changesOf d = 0 := by
  rcases d with ⟨mdb⟩
  cases mdb with
  | none => exact ⟨rfl, rfl⟩
  | some id => simp at h

/-- Witness for C8: a freshly constructed, never-opened handle reports 0
for both metadata queries even in an environment whose connections would
report nonzero values. -/
theorem metadata_zero_when_closed_witness :
    SqliteDatabase.lastInsertRowId (fun _ => 7) SqliteDatabase.mkClosed = 0 ∧
      SqliteDatabase.changesCount (fun _ => 9) SqliteDatabase.mkClosed = 0 :=
  metadata_zero_when_closed (fun _ => 7) (fun _ => 9) SqliteDatabase.mkClosed rfl

/-- The bulkSelect accumulation loop concatenates the per-parameter-set
results in the order of the supplied parameter sets. -/
theorem bulkSelectGo_concat (queryFn : QueryFn) (c : Conn) :
    ∀ (paramSets : List (List DbValue)) (acc : List DbRow),
      bulkSelectGo queryFn c acc paramSets =
        acc ++ (paramSets.map (queryFn (visibleTable c))).flatten := by
  intro paramSets
  induction paramSets with
  | nil => intro acc; simp [bulkSelectGo]
  | cons p rest ih => intro acc; simp [bulkSelectGo, ih]

/-- Preparing a statement does not change the table a statement sees. -/
theorem visibleTable_dbPrepare (c : Conn) :
    visibleTable (dbPrepare c) = visibleTable c := rfl

/-- Preparing a statement leaves the transaction-control trace unchanged. -/
theorem dbPrepare_txnLog (c : Conn) : (dbPrepare c).txnLog = c.txnLog := rfl

/-- Preparing a statement leaves the committed store unchanged. -/
theorem dbPrepare_store (c : Conn) : (dbPrepare c).store = c.store := rfl

/-- Preparing a statement leaves the pending transaction state unchanged. -/
theorem dbPrepare_pending (c : Conn) : (dbPrepare c).pending = c.pending := rfl

/-- C3, counterexample: bulkSelect issues no transaction-control statement
at all - on the same connection, a one-row bulk insert leaves the BEGIN and
COMMIT of its TransactionScope in the trace, while a bulk select over a
non-empty parameter-set list leaves the trace empty; so bulk select is not
TransactionGuard-wrapped as claimed. -/
theorem bulkSelect_opens_no_transaction_cex :
    (bulkSelect (fun t _ => t) { connEmpty with store := [[DbValue.vInt 5]] }
        [[DbValue.vInt 1]]).1.txnLog = [] ∧
      (bulkInsert (fun _ _ => false) connEmpty "t" ["v"]
          [[DbValue.vInt 1]]).1.txnLog = [TxnStmt.tBegin, TxnStmt.tCommit] :=
  ⟨rfl, rfl⟩

/-- C3, amended: bulk select drives its single prepared Statement across
all supplied parameter sets and returns the concatenation of the
per-execution Results in the order of the supplied parameter sets
(preserving, within each, the store's row order), but unlike bulk insert
and bulk execute it opens no transaction: the connection's committed store,
pending transaction state and transaction-control trace are untouched. -/
theorem bulkSelect_concatenates_without_transaction (queryFn : QueryFn)
    (c : Conn) (paramSets : List (List DbValue)) :
    (bulkSelect queryFn c paramSets).2 =
        (paramSets.map (queryFn (visibleTable c))).flatten ∧
      (bulkSelect queryFn c paramSets).1.txnLog = c.txnLog ∧
      (bulkSelect queryFn c paramSets).1.store = c.store ∧
      (bulkSelect queryFn c paramSets).1.pending = c.pending := by
  by_cases hps : paramSets.isEmpty
  · have : paramSets = [] := List.isEmpty_iff.mp hps
    subst this
    simp [bulkSelect]
  · simp [bulkSelect, hps, bulkSelectGo_concat, visibleTable_dbPrepare,
      dbPrepare_txnLog, dbPrepare_store, dbPrepare_pending]

/-- C9: every successful open(path) enables referential-integrity
(foreign-key) enforcement on the new connection before returning. -/
theorem dbOpen_enables_foreign_keys (openable : String → Bool)
    (allocOnFail : Bool) (d : SqliteDatabase) (w : World) (path : String)
    (h : openable path = true) :
    ∃ id, (dbOpen openable allocOnFail d w path).1.1.m_db = some id ∧
      id ∈ (dbOpen openable allocOnFail d w path).1.2.fkOn := by
  rcases d with ⟨mdb⟩
  cases mdb with
  | none =>
    refine ⟨w.nextId, ?_, ?_⟩ <;>
      simp [dbOpen, sqlite3_open_conn, h, SqliteDatabase.enableForeignKeys,
        SQLITE_OK]
  | some oldId =>
    refine ⟨(sqlite3_close_conn w oldId).nextId, ?_, ?_⟩ <;>
      simp [dbOpen, sqlite3_open_conn, h, SqliteDatabase.close,
        SqliteDatabase.enableForeignKeys, SQLITE_OK]

/-- Witness for C9: opening a fresh handle on an openable path yields a
connection with foreign-key enforcement on. -/
theorem dbOpen_enables_foreign_keys_witness :
    ∃ id, (dbOpen (fun _ => true) false SqliteDatabase.mkClosed
        { openConns := [], fkOn := [], nextId := 0 } "a.db").1.1.m_db = some id ∧
      id ∈ (dbOpen (fun _ => true) false SqliteDatabase.mkClosed
        { openConns := [], fkOn := [], nextId := 0 } "a.db").1.2.fkOn :=
  dbOpen_enables_foreign_keys (fun _ => true) false SqliteDatabase.mkClosed
    { openConns := [], fkOn := [], nextId := 0 } "a.db" rfl

/-- C4: open(path) on an already-open handle closes the existing connection
before opening the new one (the old connection id is gone from the set of
open native connections, whichever branch is taken); on success the handle
is open; if the target cannot be opened, open raises a ConnectionError, the
handle is left closed, and no native connection leaks (every remaining open
connection already existed before the call). -/
theorem dbOpen_closes_old_and_fails_closed (openable : String → Bool)
    (allocOnFail : Bool) (d : SqliteDatabase) (w : World) (path : String)
    (hwf : ∀ i, d.m_db = some i → i < w.nextId) :
    (∀ i, d.m_db = some i →
        i ∉ (dbOpen openable allocOnFail d w path).1.2.openConns) ∧
      (openable path = true →
        (dbOpen openable allocOnFail d w path).1.1.isOpen = true ∧
          (dbOpen openable allocOnFail d w path).2 = Except.ok ()) ∧
      (openable path = false →
        (dbOpen openable allocOnFail d w path).1.1.m_db = none ∧
          (dbOpen openable allocOnFail d w path).1.1.isOpen = false ∧
          isConnectionError (dbOpen openable allocOnFail d w path).2 = true ∧
          ∀ j, j ∈ (dbOpen openable allocOnFail d w path).1.2.openConns →
            j ∈ w.openConns) := by
  rcases d with ⟨mdb⟩
  cases hop : openable path with
  | true =>
    cases mdb with
    | none =>
      refine ⟨?_, fun _ => ⟨?_, ?_⟩, fun hfalse => by simp [hop] at hfalse⟩
      · intro i hi; simp at hi
      all_goals
        simp [dbOpen, sqlite3_open_conn, hop, SqliteDatabase.enableForeignKeys,
          SqliteDatabase.isOpen, SQLITE_OK]
    | some oldId =>
      have hlt : oldId < w.nextId := hwf oldId rfl
      refine ⟨?_, fun _ => ⟨?_, ?_⟩, fun hfalse => by simp [hop] at hfalse⟩
      · intro i hi
        simp only [Option.some.injEq] at hi
        subst hi
        simp [dbOpen, sqlite3_open_conn, hop, SqliteDatabase.close,
          sqlite3_close_conn, SqliteDatabase.enableForeignKeys, SQLITE_OK,
          List.mem_filter, List.mem_append]
        omega
      all_goals
        simp [dbOpen, sqlite3_open_conn, hop, SqliteDatabase.close,
          sqlite3_close_conn, SqliteDatabase.enableForeignKeys,
          SqliteDatabase.isOpen, SQLITE_OK]
  | false =>
    cases mdb with
    | none =>
      refine ⟨fun i hi => by simp at hi, fun htrue => by simp [hop] at htrue,
        fun _ => ⟨?_, ?_, ?_, ?_⟩⟩
      all_goals
        cases allocOnFail <;>
          simp [dbOpen, sqlite3_open_conn, hop, sqlite3_close_conn,
            SqliteDatabase.isOpen, isConnectionError, SQLITE_OK, SQLITE_CANTOPEN,
            List.mem_filter, List.mem_append]
      intro j hj
      exact fun _ => hj
    | some oldId =>
      have hlt : oldId < w.nextId := hwf oldId rfl
      refine ⟨?_, fun htrue => by simp [hop] at htrue, fun _ => ⟨?_, ?_, ?_, ?_⟩⟩
      · intro i hi
        simp only [Option.some.injEq] at hi
        subst hi
        cases allocOnFail <;>
          simp [dbOpen, sqlite3_open_conn, hop, SqliteDatabase.close,
            sqlite3_close_conn, SQLITE_OK, SQLITE_CANTOPEN,
            List.mem_filter, List.mem_append]
      all_goals
        cases allocOnFail <;>
          simp [dbOpen, sqlite3_open_conn, hop, SqliteDatabase.close,
            sqlite3_close_conn, SqliteDatabase.isOpen, isConnectionError,
            SQLITE_OK, SQLITE_CANTOPEN, List.mem_filter, List.mem_append]
      all_goals intro j hj
      · exact fun _ => hj
      · exact fun _ _ => hj

/-- Witness for C4: re-opening an already-open handle on an openable path
leaves the old connection closed and the handle open. -/
theorem dbOpen_closes_old_and_fails_closed_witness :
    (0 : Nat) ∉ (dbOpen (fun _ => true) false { m_db := some 0 }
        { openConns := [0], fkOn := [0], nextId := 1 } "b.db").1.2.openConns :=
  (dbOpen_closes_old_and_fails_closed (fun _ => true) false { m_db := some 0 }
      { openConns := [0], fkOn := [0], nextId := 1 } "b.db"
      (fun i hi => by
        have h0 : i = 0 := by simpa using hi.symm
        subst h0
        show (0 : Nat) < 1
        decide)).1 0 rfl

/-- C10: if the underlying COMMIT raises, TransactionScope::commit leaves
`m_finished` unset (the flag is assigned only after the commit returns), so
the destructor still rolls the transaction back: the pending work is
discarded, nothing is committed, and the trace records a ROLLBACK. -/
theorem commit_failure_leaves_guard_unfinished (c : Conn) (t : List DbRow)
    (hp : c.pending = some t) (hf : c.commitFault = true) :
    isQueryError (TransactionScope.commit { m_finished := false } c).2 = true ∧
      (TransactionScope.commit { m_finished := false } c).1.1.m_finished = false ∧
      (TransactionScope.destruct
          (TransactionScope.commit { m_finished := false } c).1.1
          (TransactionScope.commit { m_finished := false } c).1.2).pending = none ∧
      (TransactionScope.destruct
          (TransactionScope.commit { m_finished := false } c).1.1
          (TransactionScope.commit { m_finished := false } c).1.2).store = c.store ∧
      (TransactionScope.destruct
          (TransactionScope.commit { m_finished := false } c).1.1
          (TransactionScope.commit { m_finished := false } c).1.2).txnLog =
        c.txnLog ++ [TxnStmt.tRollback] := by
  simp [TransactionScope.commit, dbCommit, hp, hf, TransactionScope.destruct,
    dbRollback, isQueryError]

/-- A connection with an open transaction whose next COMMIT the store will
reject. -/
def connFaulty : Conn :=
  { store := [], pending := some [[DbValue.vInt 1]], changes := 0,
    prepared := 0, txnLog := [TxnStmt.tBegin], commitFault := true }

/-- Witness for C10: on a connection whose COMMIT fails, the guard's flag
stays unset and the destructor's rollback leaves the store untouched. -/
theorem commit_failure_leaves_guard_unfinished_witness :
    (TransactionScope.commit { m_finished := false } connFaulty).1.1.m_finished
      = false :=
  (commit_failure_leaves_guard_unfinished connFaulty [[DbValue.vInt 1]]
    rfl rfl).2.1

/-- Driving the synthesized INSERT over a batch accumulates exactly one
change per parameter set: a successful batch of k sets reports the running
total plus k. -/
theorem executeBatchGo_insert_count (conflict : List DbRow → DbRow → Bool) :
    ∀ (rows : List (List DbValue)) (tot : Nat) (c : Conn) (n : Nat),
      (executeBatchGo (insertStep conflict) tot c rows).2 = Except.ok n →
      n = tot + rows.length := by
  intro rows
  induction rows with
  | nil =>
    intro tot c n h
    simp [executeBatchGo] at h
    simp only [List.length_nil]
    omega
  | cons r rest ih =>
    intro tot c n h
    by_cases hc : conflict (visibleTable c) r = true
    · simp [executeBatchGo, stmtStep, insertStep, hc] at h
    · rw [Bool.not_eq_true] at hc
      simp only [executeBatchGo, stmtStep, insertStep, hc, Bool.false_eq_true,
        if_false] at h
      have h2 := ih (tot + 1) _ n h
      simp only [List.length_cons]
      omega

/-- C6: a successful bulk insert of N rows returns exactly N, and the empty
row list returns 0 immediately with the connection untouched (no statement
prepared, no transaction opened). -/
theorem bulkInsert_returns_row_count (conflict : List DbRow → DbRow → Bool)
    (c : Conn) (table : String) (columns : List String)
    (rows : List (List DbValue)) (n : Nat)
    (h : (bulkInsert conflict c table columns rows).2 = Except.ok n) :
    n = rows.length ∧
      (rows = [] → (bulkInsert conflict c table columns rows).1 = c) := by
  by_cases hrows : rows.isEmpty
  · have he : rows = [] := List.isEmpty_iff.mp hrows
    subst he
    have h0 : (0 : Nat) = n := by simpa [bulkInsert] using h
    exact ⟨by simpa using h0.symm, fun _ => rfl⟩
  · have hne : rows ≠ [] := by
      intro hh
      subst hh
      simp at hrows
    refine ⟨?_, fun hh => absurd hh hne⟩
    simp only [bulkInsert, hrows, Bool.false_eq_true, if_false, runBatchTxn] at h
    split at h
    · simp at h
    · split at h
      · simp at h
      · split at h
        · rename_i x2 cb u1 hbeg x1 c2 m hbatch x g1 c3 u2 hcommit
          have hm : m = n := by simpa using h
          have hc2 : (executeBatchGo (insertStep conflict) 0 cb rows).2 =
              Except.ok m := by
            rw [show executeBatchGo (insertStep conflict) 0 cb rows =
                executeBatch (insertStep conflict) cb rows from rfl, hbatch]
          have hcount := executeBatchGo_insert_count conflict rows 0 cb m hc2
          omega
        · simp at h

/-- Witness for C6: a successful two-row bulk insert returns 2, and the
empty bulk insert returns 0 with the connection unchanged. -/
theorem bulkInsert_returns_row_count_witness :
    (2 : Nat) = ([[DbValue.vInt 1], [DbValue.vInt 2]] : List (List DbValue)).length ∧
      (bulkInsert (fun _ _ => false) connEmpty "t" ["v"] []).1 = connEmpty :=
  ⟨(bulkInsert_returns_row_count (fun _ _ => false) connEmpty "t" ["v"]
      [[DbValue.vInt 1], [DbValue.vInt 2]] 2 rfl).1,
    (bulkInsert_returns_row_count (fun _ _ => false) connEmpty "t" ["v"] [] 0
      rfl).2 rfl⟩

/-- Writing the statement's result back inside an open transaction only
replaces the pending snapshot. -/
theorem setVisibleTable_of_pending (c : Conn) (t u : List DbRow)
    (hp : c.pending = some u) :
    setVisibleTable c t = { c with pending := some t } := by
  unfold setVisibleTable
  rw [hp]

/-- Inside an open transaction, driving a statement over a batch never
touches the committed store, never closes the transaction, and issues no
transaction-control statement - however far the batch gets before an
error. -/
theorem executeBatchGo_in_txn (step : StepFn) :
    ∀ (ps : List (List DbValue)) (tot : Nat) (c : Conn) (t : List DbRow),
      c.pending = some t →
      (executeBatchGo step tot c ps).1.store = c.store ∧
        (∃ u, (executeBatchGo step tot c ps).1.pending = some u) ∧
        (executeBatchGo step tot c ps).1.txnLog = c.txnLog := by
  intro ps
  induction ps with
  | nil =>
    intro tot c t hp
    exact ⟨rfl, ⟨t, hp⟩, rfl⟩
  | cons p rest ih =>
    intro tot c t hp
    rcases hstep : step (visibleTable c) p with e | ⟨t1, m⟩
    · rw [show executeBatchGo step tot c (p :: rest) = (c, Except.error e) from by
        simp only [executeBatchGo, stmtStep, hstep]]
      exact ⟨rfl, ⟨t, hp⟩, rfl⟩
    · simp only [executeBatchGo, stmtStep, hstep,
        setVisibleTable_of_pending c t1 t hp]
      exact ih _ _ t1 rfl

/-- The connection state right after the bulk helpers' guard has issued its
BEGIN: the transaction is open on a snapshot of the store and the trace has
gained the BEGIN. -/
def beginConn (c : Conn) : Conn :=
  { c with
      prepared := c.prepared + 1
      pending := some c.store
      txnLog := c.txnLog ++ [TxnStmt.tBegin] }

/-- The connection after a successful ROLLBACK: the pending snapshot is
discarded and the trace gains the ROLLBACK. -/
def rollbackConn (c : Conn) : Conn :=
  { c with
      pending := none
      txnLog := c.txnLog ++ [TxnStmt.tRollback] }

/-- The connection after the store rejected a COMMIT: only the injected
fault is consumed; the transaction stays open. -/
def clearFault (c : Conn) : Conn :=
  { c with commitFault := false }

/-- The connection after a successful COMMIT of the pending snapshot `s`:
the snapshot becomes the committed store and the trace gains the COMMIT. -/
def commitConn (c : Conn) (s : List DbRow) : Conn :=
  { c with
      store := s
      pending := none
      txnLog := c.txnLog ++ [TxnStmt.tCommit] }

/-- The destructor of a guard that never finished rolls the open
transaction back. -/
theorem destruct_unfinished_rolls_back (c : Conn) (u : List DbRow)
    (hpd : c.pending = some u) :
    TransactionScope.destruct { m_finished := false } c = rollbackConn c := by
  show (dbRollback c).1 = rollbackConn c
  unfold dbRollback rollbackConn
  rw [hpd]

/-- If the shared prepare-begin-batch-commit core of the bulk helpers ends
in an error - whether a parameter set failed mid-batch or the final COMMIT
itself was rejected - the guard's destructor has rolled back: the committed
store is exactly what it was before the call, no transaction is left open,
and the trace shows the BEGIN followed by a ROLLBACK and no COMMIT. -/
theorem runBatchTxn_error_rolls_back (step : StepFn) (c : Conn)
    (ps : List (List DbValue)) (e : DbError) (hp : c.pending = none)
    (herr : (runBatchTxn step c ps).2 = Except.error e) :
    (runBatchTxn step c ps).1.store = c.store ∧
      (runBatchTxn step c ps).1.pending = none ∧
      (runBatchTxn step c ps).1.txnLog =
        c.txnLog ++ [TxnStmt.tBegin, TxnStmt.tRollback] := by
  have hbeg : dbBeginTransaction (dbPrepare c) = (beginConn c, Except.ok ()) := by
    unfold dbBeginTransaction dbPrepare beginConn
    simp [hp]
  simp only [runBatchTxn] at herr ⊢
  rw [hbeg] at herr ⊢
  dsimp only at herr ⊢
  obtain ⟨hstore2, ⟨u, hpend2⟩, hlog2⟩ :=
    executeBatchGo_in_txn step ps 0 (beginConn c) c.store rfl
  rcases hbatch : executeBatch step (beginConn c) ps with ⟨c2, r2⟩
  rw [show executeBatchGo step 0 (beginConn c) ps = (c2, r2) from hbatch]
    at hstore2 hpend2 hlog2
  rw [hbatch] at herr
  have hst : c2.store = (beginConn c).store := hstore2
  have hpd : c2.pending = some u := hpend2
  have hlg : c2.txnLog = (beginConn c).txnLog := hlog2
  cases r2 with
  | error e2 =>
    refine ⟨?_, ?_, ?_⟩
    · show (TransactionScope.destruct { m_finished := false } c2).store = c.store
      rw [destruct_unfinished_rolls_back c2 u hpd]
      exact hst
    · show (TransactionScope.destruct { m_finished := false } c2).pending = none
      rw [destruct_unfinished_rolls_back c2 u hpd]
      rfl
    · show (TransactionScope.destruct { m_finished := false } c2).txnLog =
        c.txnLog ++ [TxnStmt.tBegin, TxnStmt.tRollback]
      rw [destruct_unfinished_rolls_back c2 u hpd]
      show c2.txnLog ++ [TxnStmt.tRollback] =
        c.txnLog ++ [TxnStmt.tBegin, TxnStmt.tRollback]
      rw [hlg]
      show (c.txnLog ++ [TxnStmt.tBegin]) ++ [TxnStmt.tRollback] =
        c.txnLog ++ [TxnStmt.tBegin, TxnStmt.tRollback]
      simp
  | ok m =>
    dsimp only at herr ⊢
    by_cases hcf : c2.commitFault = true
    · have hcommit : TransactionScope.commit { m_finished := false } c2 =
          (({ m_finished := false }, clearFault c2),
            Except.error (DbError.queryError "database is locked")) := by
        unfold TransactionScope.commit dbCommit clearFault
        rw [hpd]
        rw [hcf]
        rfl
      have hpd2 : (clearFault c2).pending = some u := hpd
      rw [hcommit]
      refine ⟨?_, ?_, ?_⟩
      · show (TransactionScope.destruct { m_finished := false }
            (clearFault c2)).store = c.store
        rw [destruct_unfinished_rolls_back (clearFault c2) u hpd2]
        exact hst
      · show (TransactionScope.destruct { m_finished := false }
            (clearFault c2)).pending = none
        rw [destruct_unfinished_rolls_back (clearFault c2) u hpd2]
        rfl
      · show (TransactionScope.destruct { m_finished := false }
            (clearFault c2)).txnLog =
          c.txnLog ++ [TxnStmt.tBegin, TxnStmt.tRollback]
        rw [destruct_unfinished_rolls_back (clearFault c2) u hpd2]
        show c2.txnLog ++ [TxnStmt.tRollback] =
          c.txnLog ++ [TxnStmt.tBegin, TxnStmt.tRollback]
        rw [hlg]
        show (c.txnLog ++ [TxnStmt.tBegin]) ++ [TxnStmt.tRollback] =
          c.txnLog ++ [TxnStmt.tBegin, TxnStmt.tRollback]
        simp
    · rw [Bool.not_eq_true] at hcf
      have hcommit : TransactionScope.commit { m_finished := false } c2 =
          (({ m_finished := true }, commitConn c2 u), Except.ok ()) := by
        unfold TransactionScope.commit dbCommit commitConn
        rw [hpd]
        rw [hcf]
        rfl
      rw [hcommit] at herr
      have herr2 : (Except.ok m : Except DbError Nat) = Except.error e := herr
      cases herr2

/-- C2: for every bulk execute and every bulk insert whose batch (or final
commit) fails, the error propagates out of the bulk operation and the
guard's destructor-triggered rollback has already undone every row of the
batch: the store is unchanged, no transaction is left open, and the trace
records BEGIN then ROLLBACK with no COMMIT. -/
theorem bulk_batch_failure_rolls_back (step : StepFn)
    (conflict : List DbRow → DbRow → Bool) (c : Conn)
    (table : String) (columns : List String)
    (paramSets rows : List (List DbValue)) (e : DbError)
    (hp : c.pending = none) :
    ((bulkExecute step c paramSets).2 = Except.error e →
      (bulkExecute step c paramSets).1.store = c.store ∧
        (bulkExecute step c paramSets).1.pending = none ∧
        (bulkExecute step c paramSets).1.txnLog =
          c.txnLog ++ [TxnStmt.tBegin, TxnStmt.tRollback]) ∧
      ((bulkInsert conflict c table columns rows).2 = Except.error e →
        (bulkInsert conflict c table columns rows).1.store = c.store ∧
          (bulkInsert conflict c table columns rows).1.pending = none ∧
          (bulkInsert conflict c table columns rows).1.txnLog =
            c.txnLog ++ [TxnStmt.tBegin, TxnStmt.tRollback]) := by
  constructor
  · intro herr
    by_cases hps : paramSets.isEmpty
    · rw [show bulkExecute step c paramSets = (c, Except.ok 0) by
        simp [bulkExecute, hps]] at herr
      simp at herr
    · have hrw : bulkExecute step c paramSets = runBatchTxn step c paramSets := by
        simp [bulkExecute, hps]
      rw [hrw] at herr ⊢
      exact runBatchTxn_error_rolls_back step c paramSets e hp herr
  · intro herr
    by_cases hrs : rows.isEmpty
    · rw [show bulkInsert conflict c table columns rows = (c, Except.ok 0) by
        simp [bulkInsert, hrs]] at herr
      simp at herr
    · have hrw : bulkInsert conflict c table columns rows =
          runBatchTxn (insertStep conflict) c rows := by
        simp [bulkInsert, hrs]
      rw [hrw] at herr ⊢
      exact runBatchTxn_error_rolls_back (insertStep conflict) c rows e hp herr

/-- Witness for C2: a two-row bulk insert whose second row violates
uniqueness returns the QueryError and leaves the store empty, the
transaction closed, and a BEGIN-ROLLBACK trace. -/
theorem bulk_batch_failure_rolls_back_witness :
    (bulkInsert (fun t r => decide (r ∈ t)) connEmpty "t" ["v"]
        [[DbValue.vInt 1], [DbValue.vInt 1]]).1.store = connEmpty.store ∧
      (bulkInsert (fun t r => decide (r ∈ t)) connEmpty "t" ["v"]
          [[DbValue.vInt 1], [DbValue.vInt 1]]).1.pending = none ∧
      (bulkInsert (fun t r => decide (r ∈ t)) connEmpty "t" ["v"]
          [[DbValue.vInt 1], [DbValue.vInt 1]]).1.txnLog =
        connEmpty.txnLog ++ [TxnStmt.tBegin, TxnStmt.tRollback] :=
  (bulk_batch_failure_rolls_back (insertStep (fun t r => decide (r ∈ t)))
      (fun t r => decide (r ∈ t)) connEmpty "t" ["v"] []
      [[DbValue.vInt 1], [DbValue.vInt 1]]
      (DbError.queryError "UNIQUE constraint failed") rfl).2 rfl

/-! Equation lemmas for the guard operations, by the state of the
connection when they run. -/

/-- The connection right after a successful BEGIN issued directly on it. -/
def startTxn (c : Conn) : Conn :=
  { c with
      pending := some c.store
      txnLog := c.txnLog ++ [TxnStmt.tBegin] }

/-- commit() while a transaction is open and the store rejects the COMMIT:
the error propagates and the flag stays unset. -/
theorem commit_eq_fault (c : Conn) (t : List DbRow) (hpd : c.pending = some t)
    (hcf : c.commitFault = true) :
    TransactionScope.commit { m_finished := false } c =
      (({ m_finished := false }, clearFault c),
        Except.error (DbError.queryError "database is locked")) := by
  unfold TransactionScope.commit dbCommit clearFault
  rw [hpd]
  rw [hcf]
  rfl

/-- commit() while a transaction is open and the store accepts the COMMIT:
the snapshot is committed and the flag is set. -/
theorem commit_eq_ok (c : Conn) (t : List DbRow) (hpd : c.pending = some t)
    (hcf : c.commitFault = false) :
    TransactionScope.commit { m_finished := false } c =
      (({ m_finished := true }, commitConn c t), Except.ok ()) := by
  unfold TransactionScope.commit dbCommit commitConn
  rw [hpd]
  rw [hcf]
  rfl

/-- commit() with no transaction active: the COMMIT statement fails, the
guard and connection are unchanged. -/
theorem commit_eq_closed (g : TransactionScope) (c : Conn)
    (hpd : c.pending = none) :
    TransactionScope.commit g c =
      ((g, c),
        Except.error (DbError.queryError "cannot commit - no transaction is active")) := by
  unfold TransactionScope.commit dbCommit
  rw [hpd]

/-- rollback() while a transaction is open: the snapshot is discarded and
the flag is set. -/
theorem rollback_eq_open (g : TransactionScope) (c : Conn) (t : List DbRow)
    (hpd : c.pending = some t) :
    TransactionScope.rollback g c =
      (({ m_finished := true }, rollbackConn c), Except.ok ()) := by
  unfold TransactionScope.rollback dbRollback rollbackConn
  rw [hpd]

/-- rollback() with no transaction active: the ROLLBACK statement fails,
the guard and connection are unchanged. -/
theorem rollback_eq_closed (g : TransactionScope) (c : Conn)
    (hpd : c.pending = none) :
    TransactionScope.rollback g c =
      ((g, c),
        Except.error (DbError.queryError "cannot rollback - no transaction is active")) := by
  unfold TransactionScope.rollback dbRollback
  rw [hpd]

/-- A mutating statement inside an open transaction rewrites the snapshot. -/
theorem dbWork_pending (f : List DbRow → List DbRow) (c : Conn)
    (t : List DbRow) (hpd : c.pending = some t) :
    dbWork f c = { c with pending := some (f t) } := by
  unfold dbWork
  rw [hpd]

/-- A mutating statement with no open transaction writes the store
directly (autocommit). -/
theorem dbWork_autocommit (f : List DbRow → List DbRow) (c : Conn)
    (hpd : c.pending = none) :
    dbWork f c = { c with store := f c.store } := by
  unfold dbWork
  rw [hpd]

/-- The invariant tying a TransactionScope to its connection at every point
of the guarded body.  `base` is the trace right after the guard's BEGIN,
`store0` the committed store at that moment.  While the guard is
unfinished, the transaction is open, nothing was committed and no further
control statement ran; once finished, the transaction is closed and the
trace has gained exactly one finalizer, a COMMIT precisely when a commit()
call succeeded. -/
def GuardInv (base : List TxnStmt) (store0 : List DbRow)
    (g : TransactionScope) (c : Conn) (committedOk : Bool) : Prop :=
  (g.m_finished = false →
    (∃ t, c.pending = some t) ∧ c.txnLog = base ∧ committedOk = false ∧
      c.store = store0) ∧
  (g.m_finished = true →
    c.pending = none ∧
      c.txnLog = base ++
        [if committedOk then TxnStmt.tCommit else TxnStmt.tRollback])

/-- Running any scope body preserves the guard invariant. -/
theorem runBody_inv (base : List TxnStmt) (store0 : List DbRow) :
    ∀ (body : List GAction) (g : TransactionScope) (c : Conn) (k : Bool),
      GuardInv base store0 g c k →
      GuardInv base store0 (runBody body g c k).guard
        (runBody body g c k).conn (runBody body g c k).committedOk := by
  intro body
  induction body with
  | nil => intro g c k h; exact h
  | cons a rest ih =>
    intro g c k h
    rcases g with ⟨fin⟩
    cases a with
    | gRaise => exact h
    | gWork f =>
      cases fin with
      | false =>
        obtain ⟨⟨t, hpend⟩, hlog, hk, hstore⟩ := h.1 rfl
        have hinv : GuardInv base store0 { m_finished := false } (dbWork f c) k := by
          rw [dbWork_pending f c t hpend]
          exact ⟨fun _ => ⟨⟨f t, rfl⟩, hlog, hk, hstore⟩,
            fun htrue => (nomatch htrue)⟩
        exact ih _ _ k hinv
      | true =>
        obtain ⟨hpend, hlog⟩ := h.2 rfl
        have hinv : GuardInv base store0 { m_finished := true } (dbWork f c) k := by
          rw [dbWork_autocommit f c hpend]
          exact ⟨fun hfalse => (nomatch hfalse), fun _ => ⟨hpend, hlog⟩⟩
        exact ih _ _ k hinv
    | gCommit =>
      cases fin with
      | false =>
        obtain ⟨⟨t, hpend⟩, hlog, hk, hstore⟩ := h.1 rfl
        by_cases hcf : c.commitFault = true
        · rw [show runBody (GAction.gCommit :: rest) { m_finished := false } c k =
              ⟨{ m_finished := false }, clearFault c, k, true⟩ from by
            simp only [runBody, commit_eq_fault c t hpend hcf]]
          exact ⟨fun _ => ⟨⟨t, hpend⟩, hlog, hk, hstore⟩,
            fun htrue => (nomatch htrue)⟩
        · rw [Bool.not_eq_true] at hcf
          rw [show runBody (GAction.gCommit :: rest) { m_finished := false } c k =
              runBody rest { m_finished := true } (commitConn c t) true from by
            simp only [runBody, commit_eq_ok c t hpend hcf]]
          apply ih
          refine ⟨fun hfalse => (nomatch hfalse), fun _ => ⟨rfl, ?_⟩⟩
          show c.txnLog ++ [TxnStmt.tCommit] =
            base ++ [if true then TxnStmt.tCommit else TxnStmt.tRollback]
          rw [hlog]
          simp
      | true =>
        obtain ⟨hpend, hlog⟩ := h.2 rfl
        rw [show runBody (GAction.gCommit :: rest) { m_finished := true } c k =
            ⟨{ m_finished := true }, c, k, true⟩ from by
          simp only [runBody, commit_eq_closed { m_finished := true } c hpend]]
        exact ⟨fun hfalse => (nomatch hfalse), fun _ => ⟨hpend, hlog⟩⟩
    | gRollback =>
      cases fin with
      | false =>
        obtain ⟨⟨t, hpend⟩, hlog, hk, hstore⟩ := h.1 rfl
        subst hk
        rw [show runBody (GAction.gRollback :: rest) { m_finished := false } c false =
            runBody rest { m_finished := true } (rollbackConn c) false from by
          simp only [runBody, rollback_eq_open { m_finished := false } c t hpend]]
        apply ih
        refine ⟨fun hfalse => (nomatch hfalse), fun _ => ⟨rfl, ?_⟩⟩
        show c.txnLog ++ [TxnStmt.tRollback] =
          base ++ [if false then TxnStmt.tCommit else TxnStmt.tRollback]
        rw [hlog]
        simp
      | true =>
        obtain ⟨hpend, hlog⟩ := h.2 rfl
        rw [show runBody (GAction.gRollback :: rest) { m_finished := true } c k =
            ⟨{ m_finished := true }, c, k, true⟩ from by
          simp only [runBody, rollback_eq_closed { m_finished := true } c hpend]]
        exact ⟨fun hfalse => (nomatch hfalse), fun _ => ⟨hpend, hlog⟩⟩

/-- C1: for every sequence of operations in a guarded scope on a connection
with no transaction already open, after the scope exits - normal end of
body, early stop, raised error, explicit commit or rollback anywhere - the
begun transaction has been finalized exactly once: the trace gains exactly
a BEGIN followed by one finalizer, which is a COMMIT precisely when a
commit() call succeeded during the body (otherwise the guard rolled back),
and no transaction is left open. -/
theorem transactionScope_finalizes_exactly_once (body : List GAction)
    (c : Conn) (hp : c.pending = none) :
    (runScope body c).conn.txnLog =
        c.txnLog ++ [TxnStmt.tBegin,
          if (runScope body c).committedOk then TxnStmt.tCommit
          else TxnStmt.tRollback] ∧
      (runScope body c).conn.pending = none := by
  have hbeg : dbBeginTransaction c = (startTxn c, Except.ok ()) := by
    unfold dbBeginTransaction startTxn
    rw [hp]
  simp only [runScope, hbeg]
  have hinv := runBody_inv (c.txnLog ++ [TxnStmt.tBegin]) c.store body
    { m_finished := false } (startTxn c) false
    ⟨fun _ => ⟨⟨c.store, rfl⟩, rfl, rfl, rfl⟩, fun htrue => (nomatch htrue)⟩
  rcases hrb : runBody body { m_finished := false } (startTxn c) false
    with ⟨g1, c1, k1, e1⟩
  rw [hrb] at hinv
  rcases g1 with ⟨fin⟩
  cases fin with
  | false =>
    obtain ⟨⟨t, hpend⟩, hlog, hk, hstore⟩ := hinv.1 rfl
    subst hk
    constructor
    · show (TransactionScope.destruct { m_finished := false } c1).txnLog =
        c.txnLog ++ [TxnStmt.tBegin, TxnStmt.tRollback]
      rw [destruct_unfinished_rolls_back c1 t hpend]
      show c1.txnLog ++ [TxnStmt.tRollback] =
        c.txnLog ++ [TxnStmt.tBegin, TxnStmt.tRollback]
      rw [hlog]
      simp
    · show (TransactionScope.destruct { m_finished := false } c1).pending = none
      rw [destruct_unfinished_rolls_back c1 t hpend]
      rfl
  | true =>
    obtain ⟨hpend, hlog⟩ := hinv.2 rfl
    constructor
    · show c1.txnLog =
        c.txnLog ++ [TxnStmt.tBegin,
          if k1 then TxnStmt.tCommit else TxnStmt.tRollback]
      rw [hlog]
      simp
    · exact hpend

/-- Witness for C1: a scope whose body writes a row and then raises ends
with the destructor's rollback - the trace is exactly BEGIN, ROLLBACK - and
no open transaction. -/
theorem transactionScope_finalizes_exactly_once_witness :
    (runScope [GAction.gWork (fun t => t ++ [[DbValue.vInt 1]]),
        GAction.gRaise] connEmpty).conn.txnLog =
      connEmpty.txnLog ++ [TxnStmt.tBegin,
        if (runScope [GAction.gWork (fun t => t ++ [[DbValue.vInt 1]]),
            GAction.gRaise] connEmpty).committedOk then TxnStmt.tCommit
        else TxnStmt.tRollback] :=
  (transactionScope_finalizes_exactly_once
    [GAction.gWork (fun t => t ++ [[DbValue.vInt 1]]), GAction.gRaise]
    connEmpty rfl).1

end Gateways.Database
